import Mathlib

/- A shallow embedding of the distributed sliding-window rate limiter:
   configuration (config.py), request data model (models.py), the limiter
   core (rate_limiter.py) and the admission handler (server.py).

   The tokenizer is an external collaborator of the program and is passed
   everywhere as a function parameter `tok : String → Nat`.  The shared
   counter store is modelled as the three counter hashes of one API key,
   each a total map from segment index to a non-negative count; a field
   absent from the hash reads as zero, exactly as `hmget` treats missing
   fields in `_get_window_sum`.  Wall-clock instants are natural numbers
   of unix seconds where the code uses `int(time.time())`, and rationals
   where the code subtracts `datetime` values with sub-second precision. -/

namespace RateLimiter

/- Configuration constants, from config.py. -/

def sliding_window_size_seconds : Nat := 60

def window_segment_count : Nat := 12

def segment_size : Nat := sliding_window_size_seconds / window_segment_count

def key1 : String := "test-key-1"

def key2 : String := "test-key-2"

def key3 : String := "test-key-3"

structure Limits where
  rpm : Int
  input_tpm : Int
  output_tpm : Int

def default_rate_limits : Limits := { rpm := 100, input_tpm := 100000, output_tpm := 100000 }

/- Config.get_api_key_limits: API_KEY_LIMITS.get(api_key, DEFAULT_RATE_LIMITS). -/
def get_api_key_limits (api_key : String) : Limits :=
  if api_key = key1 then { rpm := 10000, input_tpm := 1000, output_tpm := 1000 }
  else if api_key = key2 then { rpm := 2000, input_tpm := 10000, output_tpm := 10000 }
  else if api_key = key3 then { rpm := 5000, input_tpm := 10000, output_tpm := 10000 }
  else default_rate_limits

/- Request data model, from models.py. -/

structure ChatMessage where
  role : String
  content : String

structure ChatCompletionRequest where
  model : String
  messages : List ChatMessage
  max_tokens : Option Int

/- The three counter hashes of one API key:
   rate_limit:rpm:k, rate_limit:input_tpm:k, rate_limit:output_tpm:k. -/

inductive Metric where
  | rpm
  | input_tpm
  | output_tpm
deriving DecidableEq

abbrev Store := Metric → Int → Nat

def store0 : Store := fun _ _ => 0

/- RateLimiter._get_current_segment: int(time.time()) // self.segment_size. -/
def current_segment (now : Nat) : Int := ((now / segment_size : Nat) : Int)

/- RateLimiter._get_window_segments: start segment of the sliding window. -/
def window_start_segment (now : Nat) : Int :=
  current_segment now - (window_segment_count : Int) + 1

/- The field list [str(i) for i in range(start_segment, end_segment + 1)]. -/
def window_segment_list (now : Nat) : List Int :=
  (List.range window_segment_count).map (fun j : Nat => window_start_segment now + (j : Int))

/- RateLimiter._get_window_sum: hmget the window fields and sum, missing = 0. -/
def get_window_sum (st : Store) (m : Metric) (now : Nat) : Nat :=
  ((window_segment_list now).map (fun i => st m i)).sum

/- The store commands the limiter issues (redis hash commands on one key's
   three hashes); `expire` only touches the TTL, never a stored count. -/

inductive StoreOp where
  | hmget (m : Metric) (fields : List Int)
  | hincrby (m : Metric) (field : Int) (delta : Nat)
  | expire (m : Metric) (ttl : Nat)

def apply_op (st : Store) : StoreOp → Store
  | .hmget _ _ => st
  | .expire _ _ => st
  | .hincrby m f d => fun m2 i => if m2 = m ∧ i = f then st m2 i + d else st m2 i

def apply_ops (st : Store) (ops : List StoreOp) : Store := ops.foldl apply_op st

/- The reads issued by RateLimiter.check_rate_limit (lines 129-131). -/
def check_ops (now : Nat) : List StoreOp :=
  [ StoreOp.hmget .rpm (window_segment_list now),
    StoreOp.hmget .input_tpm (window_segment_list now),
    StoreOp.hmget .output_tpm (window_segment_list now) ]

def expire_ttl : Nat := sliding_window_size_seconds * 2

/- The pipelined writes issued by RateLimiter.record_usage (lines 165-178). -/
def record_ops (now : Nat) (input_tokens output_tokens : Nat) : List StoreOp :=
  [ StoreOp.hincrby .rpm (current_segment now) 1,
    StoreOp.hincrby .input_tpm (current_segment now) input_tokens,
    StoreOp.hincrby .output_tpm (current_segment now) output_tokens,
    StoreOp.expire .rpm expire_ttl,
    StoreOp.expire .input_tpm expire_ttl,
    StoreOp.expire .output_tpm expire_ttl ]

def record_usage (st : Store) (now : Nat) (input_tokens output_tokens : Nat) : Store :=
  apply_ops st (record_ops now input_tokens output_tokens)

/- RateLimiter._clean_old_segments on all three hashes: delete every field
   whose index is below the window start (a deleted field reads as 0). -/
def clean_old_segments (st : Store) (now : Nat) : Store :=
  fun m i => if i < window_start_segment now then 0 else st m i

/- Token estimation, RateLimiter.estimate_request_tokens. -/

def estimate_request_tokens (tok : String → Nat) (r : ChatCompletionRequest) : Nat :=
  (r.messages.foldl (fun acc msg => acc + tok msg.role + tok msg.content + 4) 0) + 2

/- Line 126: output_tokens = request.max_tokens if request.max_tokens else 1000.
   Python truthiness: None and 0 both select the 1000 default. -/
def output_reservation (r : ChatCompletionRequest) : Int :=
  match r.max_tokens with
  | some mt => if mt ≠ 0 then mt else 1000
  | none => 1000

/- RateLimitInfo, from models.py; window edges as unix-second timestamps. -/
structure RateLimitInfo where
  api_key : String
  input_tpm_used : Nat
  output_tpm_used : Nat
  rpm_used : Nat
  input_tpm_limit : Int
  output_tpm_limit : Int
  rpm_limit : Int
  window_start : Int
  window_end : Int

/- RateLimiter.check_rate_limit with the limits already resolved. -/
def check_rate_limit (tok : String → Nat) (limits : Limits) (api_key : String)
    (st : Store) (now : Nat) (r : ChatCompletionRequest) : Bool × RateLimitInfo :=
  let input_tokens := estimate_request_tokens tok r
  let output_tokens := output_reservation r
  let current_rpm := get_window_sum st .rpm now
  let current_input_tpm := get_window_sum st .input_tpm now
  let current_output_tpm := get_window_sum st .output_tpm now
  let info : RateLimitInfo :=
    { api_key := api_key
      input_tpm_used := current_input_tpm
      output_tpm_used := current_output_tpm
      rpm_used := current_rpm
      input_tpm_limit := limits.input_tpm
      output_tpm_limit := limits.output_tpm
      rpm_limit := limits.rpm
      window_start := window_start_segment now * (segment_size : Int)
      window_end := (current_segment now + 1) * (segment_size : Int) }
  if (current_rpm : Int) + 1 > limits.rpm then (false, info)
  else if (current_input_tpm : Int) + (input_tokens : Int) > limits.input_tpm then (false, info)
  else if (current_output_tpm : Int) + output_tokens > limits.output_tpm then (false, info)
  else (true, info)

/- check_rate_limit as called by the server: limits resolved from the key
   via Config.get_api_key_limits (rate_limiter.py line 117). -/
def check_rate_limit_key (tok : String → Nat) (api_key : String) (st : Store) (now : Nat)
    (r : ChatCompletionRequest) : Bool × RateLimitInfo :=
  check_rate_limit tok (get_api_key_limits api_key) api_key st now r

/- Response headers, RateLimiter.get_rate_limit_headers. -/

/- Python int() applied to a real number truncates toward zero. -/
def pyIntTrunc (q : ℚ) : Int := if 0 ≤ q then ⌊q⌋ else ⌈q⌉

/- Line 198: int((reset_time - datetime.now()).total_seconds()). -/
def retry_after_val (info : RateLimitInfo) (now : ℚ) : Int :=
  pyIntTrunc ((info.window_end : ℚ) - now)

/- datetime.isoformat of a unix-second timestamp, abstracted to an
   injective rendering of the instant. -/
def iso_timestamp (t : Int) : String := toString t

def h_limit_requests : String := "X-RateLimit-Limit-Requests"

def h_limit_tokens_input : String := "X-RateLimit-Limit-Tokens-Input"

def h_limit_tokens_output : String := "X-RateLimit-Limit-Tokens-Output"

def h_remaining_requests : String := "X-RateLimit-Remaining-Requests"

def h_remaining_tokens_input : String := "X-RateLimit-Remaining-Tokens-Input"

def h_remaining_tokens_output : String := "X-RateLimit-Remaining-Tokens-Output"

def h_reset_requests : String := "X-RateLimit-Reset-Requests"

def h_reset_tokens : String := "X-RateLimit-Reset-Tokens"

def h_retry_after : String := "Retry-After"

def get_rate_limit_headers (info : RateLimitInfo) (now : ℚ) : List (String × String) :=
  [ (h_limit_requests, toString info.rpm_limit),
    (h_limit_tokens_input, toString info.input_tpm_limit),
    (h_limit_tokens_output, toString info.output_tpm_limit),
    (h_remaining_requests, toString (max 0 (info.rpm_limit - (info.rpm_used : Int)))),
    (h_remaining_tokens_input, toString (max 0 (info.input_tpm_limit - (info.input_tpm_used : Int)))),
    (h_remaining_tokens_output, toString (max 0 (info.output_tpm_limit - (info.output_tpm_used : Int)))),
    (h_reset_requests, iso_timestamp info.window_end),
    (h_reset_tokens, iso_timestamp info.window_end),
    (h_retry_after, toString (retry_after_val info now)) ]

/- Mock response generation, server.py _generate_mock_content and
   _generate_mock_response; the random template choice is an oracle. -/

def template0 : String := "This is a mock response. Your request has been successfully processed."

def template1 : String := "I understand your request. This is a system-generated test response."

def template2 : String := "Processing complete. This is a mock response from the Rate Limiter system."

def template3_pre : String := "Message received. Currently using model: "

def template3_post : String := "."

def template4 : String := "This is an auto-generated response for testing rate limiting functionality."

def additional_content : String := " This is additional content to fill the response."

def template_choice (model : String) (i : Fin 5) : String :=
  if i.val = 0 then template0
  else if i.val = 1 then template1
  else if i.val = 2 then template2
  else if i.val = 3 then template3_pre ++ model ++ template3_post
  else template4

def generate_mock_content (r : ChatCompletionRequest) (i : Fin 5) : String :=
  let base := template_choice r.model i
  match r.max_tokens with
  | some mt =>
    if mt ≠ 0 ∧ 50 < mt
    then base ++ String.join (List.replicate (mt / 20).toNat additional_content)
    else base
  | none => base

/- The admission handler, server.py chat_completions. -/

def bearer_marker : String := "Bearer "

/- authorization.startswith of the bearer marker. -/
def starts_with_bearer (a : String) : Bool := bearer_marker.data.isPrefixOf a.data

/- Python str.replace of the bearer marker by the empty string: remove
   every leftmost non-overlapping occurrence, scanning left to right and
   resuming after each removed occurrence (line 90 of server.py). -/
def strip_bearer_list : List Char → List Char
  | [] => []
  | c :: cs =>
    if bearer_marker.data.isPrefixOf (c :: cs) then strip_bearer_list (cs.drop 6)
    else c :: strip_bearer_list cs
termination_by l => l.length
decreasing_by
  · simp
    omega
  · simp

def extract_api_key (a : String) : String := String.mk (strip_bearer_list a.data)

/- api_key in self.config.API_KEY_LIMITS. -/
def known_api_key (k : String) : Bool := k == key1 || k == key2 || k == key3

structure HttpResponse where
  status : Nat
  headers : List (String × String)

/- chat_completions.  check_now is the instant of check_rate_limit,
   rec_now the (possibly later) instant of record_usage, now_q the
   datetime.now() seen by get_rate_limit_headers, choice the random
   template pick.  401 responses model raised HTTPExceptions. -/
def chat_completions (tok : String → Nat) (st : Store) (check_now rec_now : Nat) (now_q : ℚ)
    (authorization : Option String) (r : ChatCompletionRequest) (choice : Fin 5) :
    HttpResponse × Store :=
  match authorization with
  | none => ({ status := 401, headers := [] }, st)
  | some auth =>
    if ¬ starts_with_bearer auth then ({ status := 401, headers := [] }, st)
    else
      let api_key := extract_api_key auth
      if ¬ known_api_key api_key then ({ status := 401, headers := [] }, st)
      else
        let res := check_rate_limit_key tok api_key st check_now r
        let headers := get_rate_limit_headers res.2 now_q
        if ¬ res.1 then ({ status := 429, headers := headers }, st)
        else
          let prompt_tokens := estimate_request_tokens tok r
          let completion_tokens := tok (generate_mock_content r choice)
          ({ status := 200, headers := headers }, record_usage st rec_now prompt_tokens completion_tokens)

/- Fallible-store variants: a read of a hash either fails (a transient
   store error raising through the await) or returns the window sum.
   The second component traces which hashes check attempted to read. -/

def get_window_sum_e (failure : Metric → Bool) (st : Store) (m : Metric) (now : Nat) :
    Except Unit Nat :=
  if failure m then Except.error () else Except.ok (get_window_sum st m now)

def check_rate_limit_e (tok : String → Nat) (limits : Limits) (api_key : String)
    (failure : Metric → Bool) (st : Store) (now : Nat) (r : ChatCompletionRequest) :
    Except Unit (Bool × RateLimitInfo) × List Metric :=
  match get_window_sum_e failure st .rpm now with
  | .error e => (Except.error e, [Metric.rpm])
  | .ok _ =>
    match get_window_sum_e failure st .input_tpm now with
    | .error e => (Except.error e, [Metric.rpm, Metric.input_tpm])
    | .ok _ =>
      match get_window_sum_e failure st .output_tpm now with
      | .error e => (Except.error e, [Metric.rpm, Metric.input_tpm, Metric.output_tpm])
      | .ok _ => (Except.ok (check_rate_limit tok limits api_key st now r),
                  [Metric.rpm, Metric.input_tpm, Metric.output_tpm])

/- chat_completions over the fallible store: the handler installs no
   try/except around check_rate_limit, so a store error propagates out
   of the endpoint unchanged. -/
def chat_completions_e (tok : String → Nat) (failure : Metric → Bool) (st : Store)
    (check_now rec_now : Nat) (now_q : ℚ) (authorization : Option String)
    (r : ChatCompletionRequest) (choice : Fin 5) : Except Unit HttpResponse × Store :=
  match authorization with
  | none => (Except.ok { status := 401, headers := [] }, st)
  | some auth =>
    if ¬ starts_with_bearer auth then (Except.ok { status := 401, headers := [] }, st)
    else
      let api_key := extract_api_key auth
      if ¬ known_api_key api_key then (Except.ok { status := 401, headers := [] }, st)
      else
        match (check_rate_limit_e tok (get_api_key_limits api_key) api_key failure st check_now r).1 with
        | .error e => (Except.error e, st)
        | .ok res =>
          let headers := get_rate_limit_headers res.2 now_q
          if ¬ res.1 then (Except.ok { status := 429, headers := headers }, st)
          else
            (Except.ok { status := 200, headers := headers },
             record_usage st rec_now (estimate_request_tokens tok r)
               (tok (generate_mock_content r choice)))

/- Sequential executions: one request after another against one API key,
   each request checked at check_time and, if admitted, recorded at
   rec_time; the next check starts only after that record completed. -/

structure RequestEvent where
  req : ChatCompletionRequest
  choice : Fin 5
  check_time : Nat
  rec_time : Nat

def seq_ok : Nat → List RequestEvent → Bool
  | _, [] => true
  | t, e :: rest =>
    decide (t ≤ e.check_time) && decide (e.check_time ≤ e.rec_time) && seq_ok e.rec_time rest

/- One request of the admitted-path of the handler: check, then on
   admission record actual usage (prompt_tokens = the same estimate,
   completion_tokens = tokenizer count of the mock content) and run the
   spawned clean_old_segments tasks. -/
def step_event (tok : String → Nat) (limits : Limits) (api_key : String) (st : Store)
    (e : RequestEvent) : Store :=
  if (check_rate_limit tok limits api_key st e.check_time e.req).1 then
    clean_old_segments
      (record_usage st e.rec_time (estimate_request_tokens tok e.req)
        (tok (generate_mock_content e.req e.choice)))
      e.rec_time
  else st

def run_seq (tok : String → Nat) (limits : Limits) (api_key : String) (st : Store)
    (evs : List RequestEvent) : Store :=
  evs.foldl (step_event tok limits api_key) st

def end_time : Nat → List RequestEvent → Nat
  | t, [] => t
  | _, e :: rest => end_time e.rec_time rest

def metric_limit (L : Limits) : Metric → Int
  | .rpm => L.rpm
  | .input_tpm => L.input_tpm
  | .output_tpm => L.output_tpm

/- The per-metric amount written by one record_usage call. -/
def record_delta (m : Metric) (a b : Nat) : Nat :=
  match m with
  | .rpm => 1
  | .input_tpm => a
  | .output_tpm => b

/- A length-based tokenizer stub, the kind the design notes bind in tests. -/
def len_tok : String → Nat := fun s => s.length

/- Concrete requests and events used as witnesses and counterexamples. -/

def str_user : String := "user"

def str_hi : String := "Hi"

def str_model : String := "gpt-3.5-turbo"

def demo_req : ChatCompletionRequest :=
  { model := str_model, messages := [ { role := str_user, content := str_hi } ], max_tokens := none }

def demo_event : RequestEvent :=
  { req := demo_req, choice := 0, check_time := 3, rec_time := 4 }

def cex_req : ChatCompletionRequest :=
  { model := str_model, messages := [ { role := str_user, content := str_hi } ], max_tokens := some 1 }

def cex_event : RequestEvent :=
  { req := cex_req, choice := 0, check_time := 0, rec_time := 0 }

/- A concrete snapshot with window_end = 5 (as produced by a check in
   segment 0), used against the Retry-After claim. -/
def c3_info : RateLimitInfo :=
  { api_key := key1, input_tpm_used := 0, output_tpm_used := 0, rpm_used := 0,
    input_tpm_limit := 1000, output_tpm_limit := 1000, rpm_limit := 10000,
    window_start := -55, window_end := 5 }

/- A request whose max_tokens is set to the integer 0, which Python
   truthiness treats like an absent max_tokens. -/
def c8_req : ChatCompletionRequest :=
  { model := str_model, messages := [], max_tokens := some 0 }

/- A well-formed authorization header for test-key-1. -/
def auth1 : String := "Bearer test-key-1"

/- A hypothetical API key whose value contains the bearer marker. -/
def bearer_inside_key : String := "xBearer y"

/- A failure pattern in which reading the rpm hash raises transiently. -/
def fail_rpm : Metric → Bool := fun m => m == Metric.rpm

/- A tokenizer stub that makes every estimate exceed test-key-1's itpm
   limit, forcing a rejection. -/
def tok_big : String → Nat := fun _ => 2000

/- Helper lemmas about window sums. -/

theorem list_sum_eq_icc (f : Int → Nat) (a : Int) (n : Nat) :
    (List.map (fun j : Nat => f (a + (j : Int))) (List.range n)).sum
      = ∑ i in Finset.Icc a (a + n - 1), f i := by
  induction n with
  | zero => simp
  | succ k ih =>
    rw [List.range_succ, List.map_append, List.sum_append]
    have hins : Finset.Icc a (a + (k + 1 : Nat) - 1) = insert (a + k) (Finset.Icc a (a + k - 1)) := by
      ext x
      simp only [Finset.mem_Icc, Finset.mem_insert]
      omega
    have hnot : (a + (k : Int)) ∉ Finset.Icc a (a + k - 1) := by
      simp only [Finset.mem_Icc]
      omega
    rw [hins, Finset.sum_insert hnot, ih]
    simp
    omega

theorem get_window_sum_eq_icc (st : Store) (m : Metric) (now : Nat) :
    get_window_sum st m now
      = ∑ i in Finset.Icc (window_start_segment now) (current_segment now), st m i := by
  unfold get_window_sum window_segment_list
  rw [List.map_map]
  rw [show ((fun i => st m i) ∘ fun j : Nat => window_start_segment now + (j : Int))
        = fun j : Nat => st m (window_start_segment now + (j : Int)) from rfl]
  rw [list_sum_eq_icc (fun i => st m i) (window_start_segment now) window_segment_count]
  have h2 : window_start_segment now + (window_segment_count : Int) - 1 = current_segment now := by
    unfold window_start_segment
    omega
  rw [h2]

theorem record_usage_eq (st : Store) (now : Nat) (a b : Nat) :
    record_usage st now a b
      = fun m i => if i = current_segment now then st m i + record_delta m a b else st m i := by
  funext m i
  cases m <;>
    simp [record_usage, record_ops, apply_ops, apply_op, record_delta]

theorem sum_icc_bump (f : Int → Nat) (R : Int) (d : Nat) (lo hi : Int) :
    ∑ i in Finset.Icc lo hi, (if i = R then f i + d else f i)
      = (∑ i in Finset.Icc lo hi, f i) + (if R ∈ Finset.Icc lo hi then d else 0) := by
  have h : ∀ i, (if i = R then f i + d else f i) = f i + (if i = R then d else 0) := by
    intro i
    split_ifs <;> simp
  simp only [h]
  rw [Finset.sum_add_distrib, Finset.sum_ite_eq' (Finset.Icc lo hi) R (fun _ => d)]

theorem current_segment_mono {t t2 : Nat} (h : t ≤ t2) :
    current_segment t ≤ current_segment t2 := by
  unfold current_segment
  exact_mod_cast Nat.div_le_div_right h

theorem window_sum_mono (st : Store) (m : Metric) (S : Int)
    (hsupp : ∀ i, S < i → st m i = 0) (t t2 : Nat)
    (hS : S ≤ current_segment t) (ht : t ≤ t2) :
    get_window_sum st m t2 ≤ get_window_sum st m t := by
  rw [get_window_sum_eq_icc, get_window_sum_eq_icc]
  have hseg : current_segment t ≤ current_segment t2 := current_segment_mono ht
  calc ∑ i in Finset.Icc (window_start_segment t2) (current_segment t2), st m i
      = ∑ i in (Finset.Icc (window_start_segment t2) (current_segment t2)).filter
          (fun i => i ≤ current_segment t), st m i := by
        refine (Finset.sum_filter_of_ne ?_).symm
        intro x hx hne
        by_contra hgt
        push_neg at hgt
        exact hne (hsupp x (lt_of_le_of_lt hS hgt))
    _ ≤ ∑ i in Finset.Icc (window_start_segment t) (current_segment t), st m i := by
        refine Finset.sum_le_sum_of_subset ?_
        intro x hx
        simp only [Finset.mem_filter, Finset.mem_Icc] at hx
        simp only [Finset.mem_Icc]
        unfold window_start_segment at hx ⊢
        omega

theorem get_window_sum_le_pointwise (st st2 : Store) (m : Metric) (now : Nat)
    (h : ∀ i, st m i ≤ st2 m i) : get_window_sum st m now ≤ get_window_sum st2 m now := by
  rw [get_window_sum_eq_icc, get_window_sum_eq_icc]
  exact Finset.sum_le_sum (fun i _ => h i)

theorem get_window_sum_record (st : Store) (now now2 : Nat) (a b : Nat) (m : Metric) :
    get_window_sum (record_usage st now a b) m now2
      = get_window_sum st m now2
        + (if current_segment now ∈ Finset.Icc (window_start_segment now2) (current_segment now2)
           then record_delta m a b else 0) := by
  rw [record_usage_eq, get_window_sum_eq_icc, get_window_sum_eq_icc]
  exact sum_icc_bump (fun i => st m i) (current_segment now) (record_delta m a b)
    (window_start_segment now2) (current_segment now2)

theorem clean_le_pointwise (st : Store) (now : Nat) (m : Metric) (i : Int) :
    clean_old_segments st now m i ≤ st m i := by
  unfold clean_old_segments
  split_ifs <;> simp

theorem seq_ok_cons (t : Nat) (e : RequestEvent) (rest : List RequestEvent) :
    seq_ok t (e :: rest) = true ↔
      (t ≤ e.check_time ∧ e.check_time ≤ e.rec_time ∧ seq_ok e.rec_time rest = true) := by
  simp [seq_ok, Bool.and_eq_true, and_assoc]

/- The admission test of check_rate_limit, read off the if-chain of
   lines 148-157: shared by several claims below. -/
theorem check_result_true_iff (tok : String → Nat) (limits : Limits) (api_key : String)
    (st : Store) (now : Nat) (r : ChatCompletionRequest) :
    (check_rate_limit tok limits api_key st now r).1 = true ↔
      ((get_window_sum st .rpm now : Int) + 1 ≤ limits.rpm
        ∧ (get_window_sum st .input_tpm now : Int) + (estimate_request_tokens tok r : Int)
            ≤ limits.input_tpm
        ∧ (get_window_sum st .output_tpm now : Int) + output_reservation r
            ≤ limits.output_tpm) := by
  unfold check_rate_limit
  dsimp only
  split_ifs <;> simp <;> omega

/- The inductive invariant for sequential executions: if the store is
   supported on segments at or before the current one and all window sums
   are within the limits from the last record on, one more sequential
   request preserves both, provided its recorded completion tokens do not
   exceed its admission-time output reservation. -/
theorem run_seq_inv (tok : String → Nat) (limits : Limits) (api_key : String)
    (evs : List RequestEvent) :
    ∀ (t0 : Nat) (st : Store),
    (∀ m i, current_segment t0 < i → st m i = 0) →
    (∀ m (t : Nat), t0 ≤ t → (get_window_sum st m t : Int) ≤ metric_limit limits m) →
    seq_ok t0 evs = true →
    (∀ e ∈ evs, (tok (generate_mock_content e.req e.choice) : Int) ≤ output_reservation e.req) →
    ((∀ m i, current_segment (end_time t0 evs) < i → run_seq tok limits api_key st evs m i = 0) ∧
     (∀ m (t : Nat), end_time t0 evs ≤ t →
        (get_window_sum (run_seq tok limits api_key st evs) m t : Int) ≤ metric_limit limits m)) := by
  induction evs with
  | nil =>
    intro t0 st hsupp hinv _ _
    exact ⟨hsupp, hinv⟩
  | cons e rest ih =>
    intro t0 st hsupp hinv hseq hout
    rw [seq_ok_cons] at hseq
    obtain ⟨h01, h12, hseqr⟩ := hseq
    have hrun : run_seq tok limits api_key st (e :: rest)
        = run_seq tok limits api_key (step_event tok limits api_key st e) rest := rfl
    have hend : end_time t0 (e :: rest) = end_time e.rec_time rest := rfl
    rw [hrun, hend]
    by_cases hadm : (check_rate_limit tok limits api_key st e.check_time e.req).1 = true
    · have hstep : step_event tok limits api_key st e
          = clean_old_segments
              (record_usage st e.rec_time (estimate_request_tokens tok e.req)
                (tok (generate_mock_content e.req e.choice)))
              e.rec_time := by
        unfold step_event
        rw [hadm]
        simp
      set est := estimate_request_tokens tok e.req with hest
      set outk := tok (generate_mock_content e.req e.choice) with houtk
      set strec := record_usage st e.rec_time est outk with hstrec
      set st1 := clean_old_segments strec e.rec_time with hst1
      rw [hstep]
      have hcheck := (check_result_true_iff tok limits api_key st e.check_time e.req).1 hadm
      have hsupp1 : ∀ m i, current_segment e.rec_time < i → st1 m i = 0 := by
        intro m i hi
        have hik : i ≠ current_segment e.rec_time := by omega
        have hst0 : st m i = 0 := by
          refine hsupp m i ?_
          have := current_segment_mono (le_trans h01 h12)
          omega
        have hrec : strec m i = 0 := by
          rw [hstrec, record_usage_eq]
          simp [hik, hst0]
        rw [hst1]
        unfold clean_old_segments
        split_ifs <;> simp [hrec]
      refine ih e.rec_time st1 hsupp1 ?_ hseqr ?_
      · intro m t hrt
        have hp1 : get_window_sum st1 m t ≤ get_window_sum strec m t :=
          get_window_sum_le_pointwise st1 strec m t (fun i => clean_le_pointwise strec e.rec_time m i)
        have hp2 : get_window_sum strec m t
            ≤ get_window_sum st m t + record_delta m est outk := by
          rw [hstrec, get_window_sum_record]
          split_ifs <;> omega
        have hp3 : get_window_sum st m t ≤ get_window_sum st m e.check_time := by
          refine window_sum_mono st m (current_segment t0) (hsupp m) e.check_time t ?_ ?_
          · exact current_segment_mono h01
          · omega
        have hneed : (get_window_sum st m e.check_time : Int) + record_delta m est outk
            ≤ metric_limit limits m := by
          have hout1 : (outk : Int) ≤ output_reservation e.req := hout e (by simp)
          cases m <;> simp [record_delta, metric_limit] <;> omega
        calc (get_window_sum st1 m t : Int)
            ≤ (get_window_sum st m t : Int) + record_delta m est outk := by omega
          _ ≤ (get_window_sum st m e.check_time : Int) + record_delta m est outk := by omega
          _ ≤ metric_limit limits m := hneed
      · intro e2 he2
        exact hout e2 (by simp [he2])
    · have hstep : step_event tok limits api_key st e = st := by
        unfold step_event
        simp [hadm]
      rw [hstep]
      refine ih e.rec_time st ?_ ?_ hseqr ?_
      · intro m i hi
        refine hsupp m i ?_
        have := current_segment_mono (le_trans h01 h12)
        omega
      · intro m t ht
        exact hinv m t (by omega)
      · intro e2 he2
        exact hout e2 (by simp [he2])

/-- Claim C1: for every api_key and request, check_rate_limit returns
admit = true if and only if used_rpm + 1 ≤ rpm_limit, used_itpm +
input_est ≤ itpm_limit and used_otpm + output_res ≤ otpm_limit all hold,
where used_* are the three window sums read from the store, input_est is
estimate_request_tokens of the request and output_res the output
reservation, against the limits resolved for the api_key. -/
theorem check_admits_iff (tok : String → Nat) (api_key : String) (st : Store) (now : Nat)
    (r : ChatCompletionRequest) :
    (check_rate_limit_key tok api_key st now r).1 = true ↔
      ((get_window_sum st .rpm now : Int) + 1 ≤ (get_api_key_limits api_key).rpm
        ∧ (get_window_sum st .input_tpm now : Int) + (estimate_request_tokens tok r : Int)
              ≤ (get_api_key_limits api_key).input_tpm
        ∧ (get_window_sum st .output_tpm now : Int) + output_reservation r
              ≤ (get_api_key_limits api_key).output_tpm) :=
  check_result_true_iff tok (get_api_key_limits api_key) api_key st now r

set_option maxRecDepth 100000 in
/-- Claim C2, counterexample: a strictly sequential execution of fifteen
requests against test-key-1 (otpm limit 1000), each with max_tokens = 1
and a length tokenizer stub.  Every request reserves only 1 output token
at admission, so all fifteen are admitted, but each record then writes
the tokenizer count of the canned mock template (70), leaving
used_otpm = 1050 above the limit right after the last record. -/
theorem seq_usage_exceeds_limit_cex :
    seq_ok 0 (List.replicate 15 cex_event) = true ∧
      metric_limit (get_api_key_limits key1) .output_tpm
        < (get_window_sum (run_seq len_tok (get_api_key_limits key1) key1 store0
            (List.replicate 15 cex_event)) .output_tpm 0 : Int) := by
  constructor
  · decide
  · decide

/-- Claim C2 (amended): for every sequence of requests issued strictly
sequentially (each request's record completes before the next check
starts), with non-negative limits, and provided each request's recorded
completion tokens do not exceed its admission-time output reservation,
after every request the window sums satisfy used_rpm ≤ rpm_limit,
used_itpm ≤ itpm_limit and used_otpm ≤ otpm_limit at every point from the
last record on (applicable to each prefix of the execution). -/
theorem sequential_usage_within_limits (tok : String → Nat) (limits : Limits) (api_key : String)
    (evs : List RequestEvent)
    (hrpm : 0 ≤ limits.rpm) (hitpm : 0 ≤ limits.input_tpm) (hotpm : 0 ≤ limits.output_tpm)
    (hseq : seq_ok 0 evs = true)
    (hout : ∀ e ∈ evs,
      (tok (generate_mock_content e.req e.choice) : Int) ≤ output_reservation e.req) :
    ∀ m (t : Nat), end_time 0 evs ≤ t →
      (get_window_sum (run_seq tok limits api_key store0 evs) m t : Int)
        ≤ metric_limit limits m := by
  refine (run_seq_inv tok limits api_key evs 0 store0 ?_ ?_ hseq hout).2
  · intro m i _
    rfl
  · intro m t _
    have hz : get_window_sum store0 m t = 0 := by
      rw [get_window_sum_eq_icc]
      simp [store0]
    rw [hz]
    cases m <;> simpa [metric_limit]

/-- Witness for the amended Claim C2 at a concrete one-request execution. -/
theorem sequential_usage_within_limits_witness :
    seq_ok 0 [demo_event] = true ∧
      (get_window_sum (run_seq len_tok (get_api_key_limits key1) key1 store0 [demo_event])
          .rpm 60 : Int) ≤ metric_limit (get_api_key_limits key1) .rpm := by
  constructor
  · decide
  · exact sequential_usage_within_limits len_tok (get_api_key_limits key1) key1 [demo_event]
      (by decide) (by decide) (by decide) (by decide) (by decide) .rpm 60 (by decide)

/-- Claim C4: recording usage (+1 request, +a input tokens, +b output
tokens) and then reading the window sums within the same segment observes
the rpm sum increased by exactly 1, the input_tpm sum by exactly a and the
output_tpm sum by exactly b. -/
theorem record_then_read_increments (st : Store) (now now2 : Nat) (a b : Nat)
    (hseg : now / segment_size = now2 / segment_size) :
    get_window_sum (record_usage st now a b) .rpm now2 = get_window_sum st .rpm now2 + 1
    ∧ get_window_sum (record_usage st now a b) .input_tpm now2
        = get_window_sum st .input_tpm now2 + a
    ∧ get_window_sum (record_usage st now a b) .output_tpm now2
        = get_window_sum st .output_tpm now2 + b := by
  have hcur : current_segment now = current_segment now2 := by
    unfold current_segment
    exact_mod_cast hseg
  have hmem : current_segment now
      ∈ Finset.Icc (window_start_segment now2) (current_segment now2) := by
    rw [hcur]
    simp only [Finset.mem_Icc, window_start_segment, window_segment_count]
    omega
  refine ⟨?_, ?_, ?_⟩ <;> rw [get_window_sum_record] <;> simp [hmem, record_delta]

/- Helper lemmas about Python int() truncation. -/

theorem pyIntTrunc_eq_zero_iff (q : ℚ) : pyIntTrunc q = 0 ↔ (-1 : ℚ) < q ∧ q < 1 := by
  rw [pyIntTrunc]
  split_ifs with h
  · rw [Int.floor_eq_zero_iff]
    constructor
    · intro hq
      simp only [Set.mem_Ico] at hq
      constructor <;> linarith [hq.1, hq.2]
    · intro hq
      simp only [Set.mem_Ico]
      exact ⟨h, hq.2⟩
  · rw [Int.ceil_eq_zero_iff]
    push_neg at h
    constructor
    · intro hq
      simp only [Set.mem_Ioc] at hq
      constructor
      · linarith [hq.1]
      · linarith [hq.2]
    · intro hq
      simp only [Set.mem_Ioc]
      exact ⟨hq.1, le_of_lt h⟩

theorem pyIntTrunc_le_of_le (q : ℚ) (c : Int) (h : q ≤ c) (hc : 0 ≤ c) : pyIntTrunc q ≤ c := by
  rw [pyIntTrunc]
  split_ifs with h0
  · calc ⌊q⌋ ≤ ⌊(c : ℚ)⌋ := Int.floor_le_floor h
      _ = c := Int.floor_intCast c
  · push_neg at h0
    calc ⌈q⌉ ≤ 0 := Int.ceil_le.mpr (by exact_mod_cast le_of_lt h0)
      _ ≤ c := hc

/- The snapshot built by check_rate_limit carries the same window_end in
   every branch of the if-chain. -/
theorem check_window_end (tok : String → Nat) (limits : Limits) (api_key : String)
    (st : Store) (tc : Nat) (r : ChatCompletionRequest) :
    (check_rate_limit tok limits api_key st tc r).2.window_end
      = (current_segment tc + 1) * (segment_size : Int) := by
  unfold check_rate_limit
  dsimp only
  split_ifs <;> rfl

/-- Claim C3, counterexample: at the snapshot with window_end = 5 and
now = 4.5, the code's Retry-After is int(0.5) = 0, although now has not
reached window_end and ceil(window_end − now) clamped at 0 equals 1: both
the ceil formula and the "zero iff now ≥ window_end" equivalence fail. -/
theorem retry_after_ceil_cex :
    retry_after_val c3_info (9/2 : ℚ) = 0
    ∧ ¬ ((9/2 : ℚ) ≥ (c3_info.window_end : ℚ))
    ∧ max 0 ⌈(c3_info.window_end : ℚ) - (9/2 : ℚ)⌉ = 1 := by
  refine ⟨?_, ?_, ?_⟩
  · show pyIntTrunc ((5 : ℚ) - 9/2) = 0
    rw [pyIntTrunc]
    norm_num
  · show ¬ ((9/2 : ℚ) ≥ (5 : ℚ))
    norm_num
  · show max 0 ⌈(5 : ℚ) - 9/2⌉ = 1
    have h : ⌈(5 : ℚ) - 9/2⌉ = 1 := by
      rw [Int.ceil_eq_iff]
      norm_num
    rw [h]
    norm_num

/-- Claim C3 (amended): the Retry-After header value is the Python int()
truncation toward zero of (window_end − now), with no clamping; it is at
most window_size whenever window_end − now ≤ window_size — in particular
for every snapshot produced by a check at a time not after now — and it
equals 0 if and only if −1 < window_end − now < 1. -/
theorem retry_after_header_props (info : RateLimitInfo) (now : ℚ) :
    List.lookup h_retry_after (get_rate_limit_headers info now)
        = some (toString (pyIntTrunc ((info.window_end : ℚ) - now)))
    ∧ ((info.window_end : ℚ) - now ≤ (sliding_window_size_seconds : ℚ) →
        retry_after_val info now ≤ (sliding_window_size_seconds : Int))
    ∧ (retry_after_val info now = 0 ↔
        (-1 : ℚ) < (info.window_end : ℚ) - now ∧ (info.window_end : ℚ) - now < 1)
    ∧ (∀ (tok : String → Nat) (limits : Limits) (k : String) (st : Store) (tc : Nat)
          (r : ChatCompletionRequest), (tc : ℚ) ≤ now →
        retry_after_val (check_rate_limit tok limits k st tc r).2 now
          ≤ (sliding_window_size_seconds : Int)) := by
  refine ⟨rfl, ?_, ?_, ?_⟩
  · intro h
    exact pyIntTrunc_le_of_le _ _ (by exact_mod_cast h) (by decide)
  · exact pyIntTrunc_eq_zero_iff _
  · intro tok limits k st tc r htc
    rw [retry_after_val, check_window_end]
    refine pyIntTrunc_le_of_le _ _ ?_ (by decide)
    have hdm : (tc / segment_size) * segment_size ≤ tc := Nat.div_mul_le_self tc segment_size
    have hInt : (current_segment tc + 1) * (segment_size : Int) ≤ (tc : Int) + segment_size := by
      unfold current_segment
      have hdc : ((tc / segment_size : Nat) : Int) * (segment_size : Int) ≤ (tc : Int) := by
        exact_mod_cast hdm
      have hexp : (((tc / segment_size : Nat) : Int) + 1) * (segment_size : Int)
          = ((tc / segment_size : Nat) : Int) * (segment_size : Int) + segment_size := by
        ring
      linarith
    have hq : (((current_segment tc + 1) * (segment_size : Int) : Int) : ℚ)
        ≤ (tc : ℚ) + (segment_size : ℚ) := by
      exact_mod_cast hInt
    have hs60 : (segment_size : ℚ) ≤ (sliding_window_size_seconds : ℚ) := by
      norm_num [segment_size, sliding_window_size_seconds, window_segment_count]
    have hW : ((sliding_window_size_seconds : Int) : ℚ) = (sliding_window_size_seconds : ℚ) := by
      push_cast
      ring
    linarith

/-- Witness for the amended Claim C3 at the concrete snapshot and time
now = 1 (window_end − now = 4 ≤ window_size). -/
theorem retry_after_header_props_witness :
    ((c3_info.window_end : ℚ) - 1 ≤ (sliding_window_size_seconds : ℚ))
    ∧ retry_after_val c3_info 1 ≤ (sliding_window_size_seconds : Int) :=
  ⟨by norm_num [c3_info, sliding_window_size_seconds],
   (retry_after_header_props c3_info 1).2.1
     (by norm_num [c3_info, sliding_window_size_seconds])⟩

/-- Claim C7: each of the three X-RateLimit-Remaining-* header values
equals max(0, limit − used) for its metric, computed from the limit and
used fields of the snapshot. -/
theorem remaining_headers_eq (info : RateLimitInfo) (now : ℚ) :
    List.lookup h_remaining_requests (get_rate_limit_headers info now)
        = some (toString (max 0 (info.rpm_limit - (info.rpm_used : Int))))
    ∧ List.lookup h_remaining_tokens_input (get_rate_limit_headers info now)
        = some (toString (max 0 (info.input_tpm_limit - (info.input_tpm_used : Int))))
    ∧ List.lookup h_remaining_tokens_output (get_rate_limit_headers info now)
        = some (toString (max 0 (info.output_tpm_limit - (info.output_tpm_used : Int)))) := by
  refine ⟨?_, ?_, ?_⟩ <;> rfl

/-- Claim C8, counterexample: with max_tokens set to 0 the code falls
back to the 1000-token default, so the reservation does not equal the
set max_tokens value. -/
theorem output_reservation_zero_cex :
    c8_req.max_tokens = some 0 ∧ output_reservation c8_req = 1000 ∧ (1000 : Int) ≠ 0 := by
  refine ⟨rfl, rfl, by decide⟩

/-- Claim C8 (amended): the output-token reservation equals
request.max_tokens when max_tokens is set and nonzero (truthy), and
equals 1000 when max_tokens is unset or set to 0. -/
theorem output_reservation_eq (r : ChatCompletionRequest) :
    (∀ mt : Int, r.max_tokens = some mt → mt ≠ 0 → output_reservation r = mt)
    ∧ ((r.max_tokens = none ∨ r.max_tokens = some 0) → output_reservation r = 1000) := by
  constructor
  · intro mt hmt hne
    simp [output_reservation, hmt, hne]
  · intro h
    rcases h with h | h <;> simp [output_reservation, h]

/-- Witness for the amended Claim C8: a request without max_tokens
reserves 1000 and a request with max_tokens = 1 reserves 1. -/
theorem output_reservation_eq_witness :
    output_reservation demo_req = 1000 ∧ output_reservation cex_req = 1 :=
  ⟨(output_reservation_eq demo_req).2 (Or.inl rfl),
   (output_reservation_eq cex_req).1 1 rfl (by decide)⟩

/-- Witness for Claim C4: a record at t = 7 read back at t = 9 (both in
segment 1) increments the three sums by exactly 1, 3, 4. -/
theorem record_then_read_increments_witness :
    7 / segment_size = 9 / segment_size ∧
      (get_window_sum (record_usage store0 7 3 4) .rpm 9 = get_window_sum store0 .rpm 9 + 1
        ∧ get_window_sum (record_usage store0 7 3 4) .input_tpm 9
            = get_window_sum store0 .input_tpm 9 + 3
        ∧ get_window_sum (record_usage store0 7 3 4) .output_tpm 9
            = get_window_sum store0 .output_tpm 9 + 4) :=
  ⟨by decide, record_then_read_increments store0 7 9 3 4 (by decide)⟩

/- Helper lemmas about the bearer-marker replacement of server.py line 90. -/

theorem strip_bearer_append (l : List Char) :
    strip_bearer_list (bearer_marker.data ++ l) = strip_bearer_list l := by
  have hpre : bearer_marker.data.isPrefixOf (bearer_marker.data ++ l) = true := by
    rw [List.isPrefixOf_iff_prefix]
    exact List.prefix_append _ _
  rw [show bearer_marker.data ++ l
      = 'B' :: (('e' :: 'a' :: 'r' :: 'e' :: 'r' :: ' ' :: []) ++ l) from rfl] at hpre ⊢
  rw [strip_bearer_list]
  simp only [hpre, if_true]
  rw [@List.drop_left' Char ('e' :: 'a' :: 'r' :: 'e' :: 'r' :: ' ' :: []) l 6 rfl]

theorem strip_length_le (l : List Char) :
    (strip_bearer_list l).length ≤ l.length := by
  induction l using strip_bearer_list.induct with
  | case1 => simp [strip_bearer_list]
  | case2 c cs hpre ih =>
    rw [strip_bearer_list, if_pos hpre]
    have := List.length_drop 6 cs
    simp only [List.length_cons]
    omega
  | case3 c cs hpre ih =>
    rw [strip_bearer_list, if_neg hpre]
    simp only [List.length_cons]
    omega

theorem strip_length_lt (v : List Char) :
    ∀ u : List Char,
      (strip_bearer_list (u ++ bearer_marker.data ++ v)).length
        < (u ++ bearer_marker.data ++ v).length := by
  intro u
  induction u with
  | nil =>
    simp only [List.nil_append]
    rw [strip_bearer_append]
    have h1 := strip_length_le v
    simp only [List.length_append]
    have h7 : bearer_marker.data.length = 7 := by decide
    omega
  | cons c u ih =>
    have hsh : (c :: u) ++ bearer_marker.data ++ v = c :: (u ++ bearer_marker.data ++ v) := by
      simp
    rw [hsh]
    by_cases hpre : bearer_marker.data.isPrefixOf (c :: (u ++ bearer_marker.data ++ v)) = true
    · rw [strip_bearer_list, if_pos hpre]
      have h1 := strip_length_le ((u ++ bearer_marker.data ++ v).drop 6)
      have h2 := List.length_drop 6 (u ++ bearer_marker.data ++ v)
      simp only [List.length_cons]
      omega
    · rw [strip_bearer_list, if_neg hpre]
      simp only [List.length_cons]
      omega

/- Evaluation of the key extraction on the concrete header. -/
theorem extract_auth1 : extract_api_key auth1 = key1 := by
  simp [extract_api_key, auth1, strip_bearer_list, bearer_marker, key1]

/-- Claim C6: check performs only reads — interpreting the store commands
issued by check_rate_limit leaves the store unchanged — and when check
returns admit = false the handler answers 429 without invoking record, so
a rejected request changes no counter state at all. -/
theorem check_read_only_reject_frame (tok : String → Nat) (st : Store) (cn rn : Nat)
    (nq : ℚ) (a : String) (r : ChatCompletionRequest) (ch : Fin 5)
    (hb : starts_with_bearer a = true)
    (hk : known_api_key (extract_api_key a) = true)
    (hrej : (check_rate_limit_key tok (extract_api_key a) st cn r).1 = false) :
    apply_ops st (check_ops cn) = st
    ∧ (chat_completions tok st cn rn nq (some a) r ch).1.status = 429
    ∧ (chat_completions tok st cn rn nq (some a) r ch).2 = st := by
  refine ⟨rfl, ?_, ?_⟩ <;> simp [chat_completions, hb, hk, hrej]

/-- Witness for Claim C6: with a tokenizer that estimates 4006 input
tokens, test-key-1's itpm limit of 1000 forces a rejection: the handler
returns 429 and the store is unchanged. -/
theorem check_read_only_reject_frame_witness :
    (chat_completions tok_big store0 0 0 0 (some auth1) demo_req 0).1.status = 429
    ∧ (chat_completions tok_big store0 0 0 0 (some auth1) demo_req 0).2 = store0 :=
  ((check_read_only_reject_frame tok_big store0 0 0 0 auth1 demo_req 0
      (by decide)
      (by rw [extract_auth1]; decide)
      (by rw [extract_auth1]; decide)).2)

/-- Claim C9: for every authenticated request, the rate-limit headers
computed from the check snapshot are attached to the response both when
the request is admitted (status 200) and when it is rejected (429). -/
theorem headers_attached_both (tok : String → Nat) (st : Store) (cn rn : Nat) (nq : ℚ)
    (a : String) (r : ChatCompletionRequest) (ch : Fin 5)
    (hb : starts_with_bearer a = true)
    (hk : known_api_key (extract_api_key a) = true) :
    (chat_completions tok st cn rn nq (some a) r ch).1.headers
        = get_rate_limit_headers (check_rate_limit_key tok (extract_api_key a) st cn r).2 nq
    ∧ ((chat_completions tok st cn rn nq (some a) r ch).1.status = 200
        ∨ (chat_completions tok st cn rn nq (some a) r ch).1.status = 429) := by
  by_cases hal : (check_rate_limit_key tok (extract_api_key a) st cn r).1 = true
  · constructor <;> simp [chat_completions, hb, hk, hal]
  · rw [Bool.not_eq_true] at hal
    constructor
    · simp [chat_completions, hb, hk, hal]
    · right
      simp [chat_completions, hb, hk, hal]

/-- Witness for Claim C9 on a concrete admitted request. -/
theorem headers_attached_both_witness :
    (chat_completions len_tok store0 3 4 0 (some auth1) demo_req 0).1.headers
        = get_rate_limit_headers
            (check_rate_limit_key len_tok (extract_api_key auth1) store0 3 demo_req).2 0
    ∧ ((chat_completions len_tok store0 3 4 0 (some auth1) demo_req 0).1.status = 200
        ∨ (chat_completions len_tok store0 3 4 0 (some auth1) demo_req 0).1.status = 429) :=
  headers_attached_both len_tok store0 3 4 0 auth1 demo_req 0
    (by decide) (by rw [extract_auth1]; decide)

/-- Claim C5, counterexample: with the rpm-hash read failing transiently,
the check attempts that read exactly once (trace [rpm], no retry) and the
handler propagates the error instead of answering 503 with Retry-After: 1. -/
theorem store_read_failure_cex :
    (chat_completions_e len_tok fail_rpm store0 0 0 0 (some auth1) demo_req 0).1
        = Except.error ()
    ∧ (check_rate_limit_e len_tok (get_api_key_limits key1) key1 fail_rpm store0 0 demo_req).2
        = [Metric.rpm] := by
  constructor
  · have hsb : starts_with_bearer auth1 = true := by decide
    have hkk : known_api_key key1 = true := by decide
    simp [chat_completions_e, check_rate_limit_e, get_window_sum_e, fail_rpm, extract_auth1,
      hsb, hkk]
  · decide

/-- Claim C5 (amended): a transient store read failure during check is
not retried — every hash read is attempted at most once — and no 503
response with Retry-After: 1 is produced: the exception propagates out of
the handler, the request is not admitted, and the counters are unchanged
(fail-closed, never fail-open). -/
theorem store_read_failure_no_retry (tok : String → Nat) (failure : Metric → Bool)
    (st : Store) (cn rn : Nat) (nq : ℚ) (a : String) (r : ChatCompletionRequest) (ch : Fin 5)
    (hb : starts_with_bearer a = true)
    (hk : known_api_key (extract_api_key a) = true)
    (hf : failure Metric.rpm = true ∨ failure Metric.input_tpm = true
          ∨ failure Metric.output_tpm = true) :
    (chat_completions_e tok failure st cn rn nq (some a) r ch).1 = Except.error ()
    ∧ (chat_completions_e tok failure st cn rn nq (some a) r ch).2 = st
    ∧ (∀ m : Metric,
        ((check_rate_limit_e tok (get_api_key_limits (extract_api_key a)) (extract_api_key a)
            failure st cn r).2.count m ≤ 1)) := by
  have hcount : ∀ (l : List Metric), l.Nodup → ∀ m : Metric, l.count m ≤ 1 := by
    intro l hl m
    exact List.nodup_iff_count_le_one.mp hl m
  cases hr1 : failure Metric.rpm
  · cases hr2 : failure Metric.input_tpm
    · cases hr3 : failure Metric.output_tpm
      · exfalso
        rcases hf with h | h | h <;> simp_all
      · refine ⟨?_, ?_, ?_⟩
        · simp [chat_completions_e, check_rate_limit_e, get_window_sum_e, hb, hk, hr1, hr2, hr3]
        · simp [chat_completions_e, check_rate_limit_e, get_window_sum_e, hb, hk, hr1, hr2, hr3]
        · intro m
          have ht : (check_rate_limit_e tok (get_api_key_limits (extract_api_key a))
              (extract_api_key a) failure st cn r).2
              = [Metric.rpm, Metric.input_tpm, Metric.output_tpm] := by
            simp [check_rate_limit_e, get_window_sum_e, hr1, hr2, hr3]
          rw [ht]
          refine hcount _ (by decide) m
    · refine ⟨?_, ?_, ?_⟩
      · simp [chat_completions_e, check_rate_limit_e, get_window_sum_e, hb, hk, hr1, hr2]
      · simp [chat_completions_e, check_rate_limit_e, get_window_sum_e, hb, hk, hr1, hr2]
      · intro m
        have ht : (check_rate_limit_e tok (get_api_key_limits (extract_api_key a))
            (extract_api_key a) failure st cn r).2 = [Metric.rpm, Metric.input_tpm] := by
          simp [check_rate_limit_e, get_window_sum_e, hr1, hr2]
        rw [ht]
        refine hcount _ (by decide) m
  · refine ⟨?_, ?_, ?_⟩
    · simp [chat_completions_e, check_rate_limit_e, get_window_sum_e, hb, hk, hr1]
    · simp [chat_completions_e, check_rate_limit_e, get_window_sum_e, hb, hk, hr1]
    · intro m
      have ht : (check_rate_limit_e tok (get_api_key_limits (extract_api_key a))
          (extract_api_key a) failure st cn r).2 = [Metric.rpm] := by
        simp [check_rate_limit_e, get_window_sum_e, hr1]
      rw [ht]
      refine hcount _ (by decide) m

/-- Witness for the amended Claim C5 at the concrete failing read. -/
theorem store_read_failure_no_retry_witness :
    (chat_completions_e len_tok fail_rpm store0 0 0 0 (some auth1) demo_req 0).1
        = Except.error ()
    ∧ (chat_completions_e len_tok fail_rpm store0 0 0 0 (some auth1) demo_req 0).2 = store0 :=
  ⟨(store_read_failure_no_retry len_tok fail_rpm store0 0 0 0 auth1 demo_req 0
      (by decide) (by rw [extract_auth1]; decide) (Or.inl (by decide))).1,
   (store_read_failure_no_retry len_tok fail_rpm store0 0 0 0 auth1 demo_req 0
      (by decide) (by rw [extract_auth1]; decide) (Or.inl (by decide))).2.1⟩

/-- Claim C10: for every Authorization header starting with the bearer
marker, the api_key the handler authenticates is the header with every
occurrence of the substring removed (str.replace removes all occurrences,
not only the leading prefix); in particular a key whose value itself
contains the marker is mangled — the extracted key differs from it — and
so cannot authenticate as that key. -/
theorem bearer_replaced_everywhere (a k : String) (u v : List Char)
    (ha : starts_with_bearer a = true)
    (hk : k.data = u ++ bearer_marker.data ++ v) :
    extract_api_key a = String.mk (strip_bearer_list a.data)
    ∧ strip_bearer_list ((bearer_marker ++ k).data) = strip_bearer_list k.data
    ∧ extract_api_key (bearer_marker ++ k) ≠ k := by
  refine ⟨rfl, ?_, ?_⟩
  · rw [String.data_append, strip_bearer_append]
  · intro heq
    have h2 : String.mk (strip_bearer_list k.data) = k := by
      rw [extract_api_key, String.data_append, strip_bearer_append] at heq
      exact heq
    have h3 : strip_bearer_list k.data = k.data := by
      cases k
      injection h2
    have h4 : (strip_bearer_list k.data).length < k.data.length := by
      rw [hk]
      exact strip_length_lt v u
    rw [h3] at h4
    omega

/-- Witness for Claim C10: the key "xBearer y" under the header
"Bearer xBearer y" is extracted as something different from itself. -/
theorem bearer_replaced_everywhere_witness :
    extract_api_key auth1 = String.mk (strip_bearer_list auth1.data)
    ∧ extract_api_key (bearer_marker ++ bearer_inside_key) ≠ bearer_inside_key :=
  ⟨(bearer_replaced_everywhere auth1 bearer_inside_key ('x' :: []) ('y' :: [])
      (by decide) (by decide)).1,
   (bearer_replaced_everywhere auth1 bearer_inside_key ('x' :: []) ('y' :: [])
      (by decide) (by decide)).2.2⟩

end RateLimiter
